import Mathlib

/-!
Verification of the schema-inference and metadata-reconciliation engine of
`apc_csv_processing.py` (openapc-de).  The Python source is shallowly embedded:

* `CSVColumn` / `check_overwrite` embed the class of the same name
  (the OverwriteResolver of the spec); the interactive `raw_input` loop,
  which re-prompts until one of the answers "1".."6" is given, is embedded
  as the six-constructor type `OverwriteChoice` supplied by an oracle;
* Python dicts holding string keys/values (`overwrite_whitelist`,
  `overwrite_blacklist`, `current_row`) are association lists with
  replace-or-append update, matching dict assignment semantics;
* external collaborators (Crossref/Pubmed/DOAJ clients, `locale.atof`,
  `oat.DOI_RE`, unification lookups, the interactive decision provider,
  the current year, Python float formatting) are the fields of `Env`,
  per the boundary contracts of spec section 6;
* `sys.exit` on an unparseable monetary value becomes `Except.error`.
-/

/-- Python `str.strip()`: remove surrounding whitespace (implemented on the
character list so that it reduces inside the kernel). -/
def strip (s : String) : String :=
  ⟨((s.data.dropWhile Char.isWhitespace).reverse.dropWhile Char.isWhitespace).reverse⟩

/-- Python dict read: first binding of the key, if any. -/
def dictGet : List (String × String) → String → Option String
  | [], _ => none
  | (k', v) :: d, k => if k' = k then some v else dictGet d k

/-- Python dict assignment `d[k] = v`: replace the existing binding in place,
append if absent. -/
def dictSet : List (String × String) → String → String → List (String × String)
  | [], k, v => [(k, v)]
  | (k', v') :: d, k, v => if k' = k then (k, v) :: d else (k', v') :: dictSet d k v

/-- The source's `CSVColumn.MANDATORY`. -/
def MANDATORY : String := "mandatory"

/-- The source's `CSVColumn.OPTIONAL`. -/
def OPTIONAL : String := "optional"

/-- The source's `CSVColumn.NONE`. -/
def NONE : String := "non-required"

/-- `CSVColumn.OW_ALWAYS`. -/
def OW_ALWAYS : Nat := 0

/-- `CSVColumn.OW_ASK`. -/
def OW_ASK : Nat := 1

/-- `CSVColumn.OW_NEVER`. -/
def OW_NEVER : Nat := 2

/-- The state of one `CSVColumn` object (fields of `CSVColumn.__init__`). -/
structure CSVColumn where
  column_type : String
  requirement : String
  index : Option Nat
  column_name : String
  overwrite : Nat
  overwrite_whitelist : List (String × String)
  overwrite_blacklist : List (String × String)
deriving DecidableEq, Repr

/-- `CSVColumn(column_type, requirement, index)`: constructor with the
source's default arguments (`column_name=""`, `overwrite=OW_ASK`, empty
whitelist/blacklist dicts). -/
def mkCSVColumn (column_type requirement : String) (index : Option Nat) : CSVColumn :=
  ⟨column_type, requirement, index, "", OW_ASK, [], []⟩

/-- The six answers the interactive prompt of `check_overwrite` accepts.
The `while ret not in ["1", ..., "6"]` loop of the source re-prompts until
one of exactly these six is entered, so the decision provider is embedded
as a total function into this type. Constructors follow prompt options 1-6. -/
inductive OverwriteChoice where
  | yes
  | yesRemember
  | yesAlways
  | no
  | noRemember
  | noNever
deriving DecidableEq, Repr

/-- `CSVColumn.check_overwrite(old_value, new_value)`: returns the resolved
value together with the (possibly mutated) column state.  `choice` is the
answer the interactive prompt would receive when the call reaches it. -/
def check_overwrite (c : CSVColumn) (old_value new_value : String)
    (choice : OverwriteChoice) : String × CSVColumn :=
  if old_value = new_value then (old_value, c)
  -- Priority: Empty or NA values will always be overwritten.
  else if old_value = "NA" then (new_value, c)
  else if strip old_value = "" then (new_value, c)
  else if c.overwrite = OW_ALWAYS then (new_value, c)
  else if c.overwrite = OW_NEVER then (old_value, c)
  -- `if old_value in blacklist: if blacklist[old_value] == new_value: return old_value`
  else if dictGet c.overwrite_blacklist old_value = some new_value then (old_value, c)
  -- `if old_value in whitelist: return new_value`
  else if (dictGet c.overwrite_whitelist old_value).isSome then (new_value, c)
  else
    match choice with
    | .yes => (new_value, c)
    | .yesRemember =>
        (new_value, { c with overwrite_whitelist := dictSet c.overwrite_whitelist old_value new_value })
    | .yesAlways => (new_value, { c with overwrite := OW_ALWAYS })
    | .no => (old_value, c)
    | .noRemember =>
        (old_value, { c with overwrite_blacklist := dictSet c.overwrite_blacklist old_value new_value })
    | .noNever => (old_value, { c with overwrite := OW_NEVER })

/-- A sequence of `check_overwrite` calls on one column, keeping only the
evolving column state (the per-call oracle answer travels with each call). -/
def resolve_trace : CSVColumn → List (String × String × OverwriteChoice) → CSVColumn
  | c, [] => c
  | c, (o, n, ch) :: rest => resolve_trace (check_overwrite c o n ch).2 rest

/-- Column states that can actually arise in a run: obtained from a freshly
constructed column by some sequence of `check_overwrite` calls.  All columns
of the script are built with the constructor defaults (`overwrite=OW_ASK`,
empty memo dicts) and mutated only by `check_overwrite`. -/
def ReachableColumn (c : CSVColumn) : Prop :=
  ∃ t req idx trace, resolve_trace (mkCSVColumn t req idx) trace = c

/-- Result of `oat.get_metadata_from_crossref` / `oat.get_metadata_from_pubmed`:
either `success` with a field→value record (a Python `None` value becomes
`Option.none`), or `failure` carrying `error_msg`. -/
inductive MetaResult where
  | success (data : List (String × Option String))
  | failure (error_msg : String)

/-- Result of `oat.lookup_journal_in_doaj`: `received` when
`doaj_res["data_received"]` is true, carrying `in_doaj` and `title`;
`failure` carrying `error_msg` otherwise. -/
inductive DoajResult where
  | received (in_doaj : Bool) (title : String)
  | failure (error_msg : String)

/-- External collaborators of the core (spec section 6): metadata clients,
the DOAJ client (with the bypass flag already applied), unification lookups,
`locale.atof` (`none` embeds the `ValueError` case), the DOI regular
expression test `oat.DOI_RE.match`, `datetime.date.today().year`, Python's
`str` on a non-integral float, and the interactive decision provider
(column name, old value, new value). -/
structure Env where
  crossref : String → MetaResult
  pubmed : String → MetaResult
  doaj_lookup : String → DoajResult
  unify_title : String → String
  unify_publisher : String → String
  atof : String → Option ℚ
  doi_match : String → Bool
  current_year : Int
  floatStr : ℚ → String
  decision : String → String → String → OverwriteChoice

/-- Read from the `column_map` (an ordered dict keyed by column type).
`column_map[key]` on a missing key would raise `KeyError` in Python; the
metadata-source contract keys records by known roles, so the default column
is never meaningful in a faithful run. -/
def getCol : List CSVColumn → String → CSVColumn
  | [], t => mkCSVColumn t NONE none
  | c :: cs, t => if c.column_type = t then c else getCol cs t

/-- Write back a mutated column object into the `column_map` (Python mutates
the shared object in place; here the first column of that type is replaced). -/
def updateCol : List CSVColumn → String → CSVColumn → List CSVColumn
  | [], _, _ => []
  | c :: cs, t, c' => if c.column_type = t then c' :: cs else c :: updateCol cs t c'

/-- `current_row[key]` (an ordered dict role→value). -/
def rowGetD : List (String × String) → String → String → String
  | [], _, d => d
  | (k', v) :: r, k, d => if k' = k then v else rowGetD r k d

/-- `current_row[key] = value`: replace in place, append if the key is new. -/
def rowSet : List (String × String) → String → String → List (String × String)
  | [], k, v => [(k, v)]
  | (k', v') :: r, k, v => if k' = k then (k, v) :: r else (k', v') :: rowSet r k v

/-- The `column_map` OrderedDict built at source lines 249-268: the five
mandatory columns (with their forced/classified indices), the optional
columns, and the NONE-requirement derived columns. -/
def mk_column_map (institution period euro doi is_hybrid publisher
    journal_full_title issn url : Option Nat) : List CSVColumn :=
  [ mkCSVColumn "institution" MANDATORY institution,
    mkCSVColumn "period" MANDATORY period,
    mkCSVColumn "euro" MANDATORY euro,
    mkCSVColumn "doi" MANDATORY doi,
    mkCSVColumn "is_hybrid" MANDATORY is_hybrid,
    mkCSVColumn "publisher" OPTIONAL publisher,
    mkCSVColumn "journal_full_title" OPTIONAL journal_full_title,
    mkCSVColumn "issn" OPTIONAL issn,
    mkCSVColumn "issn_print" NONE none,
    mkCSVColumn "issn_electronic" NONE none,
    mkCSVColumn "license_ref" NONE none,
    mkCSVColumn "indexed_in_crossref" NONE none,
    mkCSVColumn "pmid" NONE none,
    mkCSVColumn "pmcid" NONE none,
    mkCSVColumn "ut" NONE none,
    mkCSVColumn "url" OPTIONAL url,
    mkCSVColumn "doaj" NONE none ]

/-- `ERROR_MSGS["locale"].format(euro_value, csv_column.index)` followed by
`sys.exit()` (embedded as the `Except.error` payload). -/
def locale_error_msg (euro_value : String) (index : Nat) : String :=
  "Error: Could not process the monetary value '" ++ euro_value ++ "' in column " ++
  toString index ++ ". This will usually have one of two reasons:\n1) The value " ++
  "does not represent a number.\n2) The value represents a number, but its format " ++
  "differs from your current system locale - the most common source of error will " ++
  "be the decimal mark (1234.56 vs 1234,56). Try using another locale with the -l option."

/-- One field of the initial `current_row` (source lines 508-527): copy the
cell of an identified, non-empty column; the euro cell is parsed with
`locale.atof` and re-serialized (`int` cast when the float is integral),
an unparseable euro cell aborts the run; everything else becomes `"NA"`.
`row[index]` out of range would raise in Python; `getD` pads with `""`. -/
def build_field (env : Env) (row : List String) (c : CSVColumn) :
    Except String (String × String) :=
  match c.index with
  | some i =>
      let cell := row.getD i ""
      if 0 < cell.length then
        if c.column_type = "euro" then
          match env.atof cell with
          | some euro =>
              .ok (c.column_type,
                   if euro.den = 1 then toString euro.num else env.floatStr euro)
          | none => .error (locale_error_msg cell i)
        else .ok (c.column_type, cell)
      else .ok (c.column_type, "NA")
  | none => .ok (c.column_type, "NA")

/-- The `for csv_column in column_map.values()` loop building `current_row`. -/
def build_current_row (env : Env) (row : List String) :
    List CSVColumn → Except String (List (String × String))
  | [] => .ok []
  | c :: cs =>
      match build_field env row c with
      | .error e => .error e
      | .ok f =>
          match build_current_row env row cs with
          | .error e => .error e
          | .ok r => .ok (f :: r)

/-- The crossref success branch's per-item normalization (source lines
535-556): `None` collapses to `"NA"`; `journal_full_title` and `publisher`
values go through the unification lookups. -/
def crossref_norm (env : Env) (key : String) (value : Option String) : String :=
  match value with
  | some v =>
      if key = "journal_full_title" then env.unify_title v
      else if key = "publisher" then env.unify_publisher v
      else v
  | none => "NA"

/-- The pubmed success branch's per-item normalization (source lines
574-578): only the `None` → `"NA"` collapse. -/
def pubmed_norm (_key : String) (value : Option String) : String :=
  match value with
  | some v => v
  | none => "NA"

/-- The shared shape of the two metadata merge loops: for each record item,
normalize, read the old value, run `check_overwrite` on the column object and
store the outcome back into row and column map. -/
def merge_record (env : Env) (norm : String → Option String → String) :
    List (String × Option String) → List (String × String) → List CSVColumn →
    List (String × String) × List CSVColumn
  | [], row, cmap => (row, cmap)
  | (key, value) :: rest, row, cmap =>
      let new_value := norm key value
      let old_value := rowGetD row key ""
      let col := getCol cmap key
      let res := check_overwrite col old_value new_value
                   (env.decision col.column_name old_value new_value)
      merge_record env norm rest (rowSet row key res.1) (updateCol cmap key res.2)

/-- Source lines 529-567: the crossref step.  Success sets
`indexed_in_crossref` to `"TRUE"` and merges the record; failure sets it to
`"FALSE"` and appends one per-line error message. -/
def crossref_merge (env : Env) (row_num : Nat) (doi : String)
    (row : List (String × String)) (cmap : List CSVColumn) (errors : List String) :
    List (String × String) × List CSVColumn × List String :=
  match env.crossref doi with
  | .success data =>
      let row := rowSet row "indexed_in_crossref" "TRUE"
      let rc := merge_record env (crossref_norm env) data row cmap
      (rc.1, rc.2, errors)
  | .failure msg =>
      (rowSet row "indexed_in_crossref" "FALSE", cmap,
       errors ++ ["Line " ++ toString row_num ++
                  ": Crossref: Error while trying to resolve DOI " ++ doi ++ ": " ++ msg])

/-- Source lines 569-588: the pubmed step. -/
def pubmed_merge (env : Env) (row_num : Nat) (doi : String)
    (row : List (String × String)) (cmap : List CSVColumn) (errors : List String) :
    List (String × String) × List CSVColumn × List String :=
  match env.pubmed doi with
  | .success data =>
      let rc := merge_record env pubmed_norm data row cmap
      (rc.1, rc.2, errors)
  | .failure msg =>
      (row, cmap,
       errors ++ ["Line " ++ toString row_num ++
                  ": Pubmed: Error while trying to resolve DOI " ++ doi ++ ": " ++ msg])

/-- The `for issn in issns` loop of the DOAJ lookup (source lines 599-615),
threading the current `current_row["doaj"]` value and the error list.
A journal found in DOAJ sets `"TRUE"` and breaks; a received "not found"
answer sets `"FALSE"` and falls through to the next candidate (there is no
`break` on that branch); a lookup failure appends one error and continues. -/
def doaj_chain (env : Env) (row_num : Nat) :
    List String → String → List String → String × List String
  | [], doaj, errors => (doaj, errors)
  | issn :: rest, doaj, errors =>
      match env.doaj_lookup issn with
      | .received true _ => ("TRUE", errors)
      | .received false _ => doaj_chain env row_num rest "FALSE" errors
      | .failure msg =>
          doaj_chain env row_num rest doaj
            (errors ++ ["Line " ++ toString row_num ++
                        ": DOAJ: Error while trying to look up ISSN " ++ issn ++ ": " ++ msg])

/-- Modelled from the spec's words for claim C2 ("stops at the first
*received* response even if that response is a definitive \"not found\",
only continuing on outright lookup failure"): the chain the claim
describes, to be compared with `doaj_chain` taken from the source. -/
def doaj_chain_claim (env : Env) (row_num : Nat) :
    List String → String → List String → String × List String
  | [], doaj, errors => (doaj, errors)
  | issn :: rest, doaj, errors =>
      match env.doaj_lookup issn with
      | .received true _ => ("TRUE", errors)
      | .received false _ => ("FALSE", errors)
      | .failure msg =>
          doaj_chain_claim env row_num rest doaj
            (errors ++ ["Line " ++ toString row_num ++
                        ": DOAJ: Error while trying to look up ISSN " ++ issn ++ ": " ++ msg])

/-- Source lines 590-616: run the DOAJ fallback chain unless `doaj` is
already `"TRUE"`; candidates are the electronic ISSN, then ISSN, then print
ISSN, each only when not `"NA"`. -/
def doaj_step (env : Env) (row_num : Nat) (row : List (String × String))
    (errors : List String) : List (String × String) × List String :=
  if rowGetD row "doaj" "" ≠ "TRUE" then
    let issns :=
      (if rowGetD row "issn_electronic" "" ≠ "NA" then [rowGetD row "issn_electronic" ""] else []) ++
      (if rowGetD row "issn" "" ≠ "NA" then [rowGetD row "issn" ""] else []) ++
      (if rowGetD row "issn_print" "" ≠ "NA" then [rowGetD row "issn_print" ""] else [])
    let dres := doaj_chain env row_num issns (rowGetD row "doaj" "") errors
    (rowSet row "doaj" dres.1, dres.2)
  else (row, errors)

/-- Reconciliation of one well-shaped data row (source lines 504-618):
build the initial row, merge crossref then pubmed metadata, run the DOAJ
chain, and emit `current_row.values()` together with the error messages
generated for this line and the updated column map. -/
def process_row (env : Env) (row_num : Nat) (row : List String)
    (cmap : List CSVColumn) :
    Except String (List String × List String × List CSVColumn) :=
  let doi := match (getCol cmap "doi").index with
             | some i => row.getD i ""
             | none => ""
  match build_current_row env row cmap with
  | .error e => .error e
  | .ok r0 =>
      let s1 := crossref_merge env row_num doi r0 cmap []
      let s2 := pubmed_merge env row_num doi s1.1 s1.2.1 s1.2.2
      let s3 := doaj_step env row_num s2.1 s2.2.2
      .ok (s3.1.map (·.2), s3.2, s2.2.1)

/-- The per-line diagnostic of source lines 494-498 for a row whose cell
count disagrees with the column count. -/
def row_shape_error_msg (row_num len_row num_columns : Nat) : String :=
  "Syntax: the number of values in line " ++ toString row_num ++ " (" ++
  toString len_row ++ ") differs from the number of columns (" ++
  toString num_columns ++ "). Line left unchanged, please correct the error " ++
  "in the result file and re-run."

/-- The metadata-aggregation loop over the reader rows (source lines
481-618): `row_num` counts every reader row; empty rows are skipped; the
first non-empty row emits the output header (the column map keys) and, when
the file has a header, is consumed by it; a row of the wrong length is passed
through unchanged with exactly one diagnostic; other rows are reconciled. -/
def process_rows (env : Env) (num_columns : Nat) :
    List (List String) → Nat → Bool → Bool → List CSVColumn →
    List (List String) → List String →
    Except String (List (List String) × List String)
  | [], _, _, _, _, enriched, errors => .ok (enriched, errors)
  | row :: rest, row_num, has_header, header_processed, cmap, enriched, errors =>
      let rn := row_num + 1
      if row.isEmpty then
        process_rows env num_columns rest rn has_header header_processed cmap enriched errors
      else
        let enriched0 :=
          if header_processed then enriched
          else enriched ++ [cmap.map (·.column_type)]
        if ¬header_processed ∧ has_header then
          process_rows env num_columns rest rn has_header true cmap enriched0 errors
        else if row.length ≠ num_columns then
          process_rows env num_columns rest rn has_header true cmap
            (enriched0 ++ [row])
            (errors ++ ["Line " ++ toString rn ++ ": " ++
                        row_shape_error_msg rn row.length num_columns])
        else
          match process_row env rn row cmap with
          | .error e => .error e
          | .ok out =>
              process_rows env num_columns rest rn has_header true out.2.2
                (enriched0 ++ [out.1]) (errors ++ out.2.1)

/-- Decimal digit list to number; `none` on the empty list. -/
def parseDigits : List Char → Option Nat
  | [] => none
  | cs =>
      if cs.all (·.isDigit) then
        some (cs.foldl (fun acc c => acc * 10 + (c.toNat - 48)) 0)
      else none

/-- Python 2 `int(string)`: surrounding whitespace is allowed, then an
optional sign and a non-empty run of decimal digits; anything else raises
`ValueError` (embedded as `none`). -/
def pyInt (s : String) : Option Int :=
  match (strip s).toList with
  | '-' :: rest => (parseDigits rest).map (fun n => -(n : Int))
  | '+' :: rest => (parseDigits rest).map (fun n => (n : Int))
  | cs => (parseDigits cs).map (fun n => (n : Int))

/-- The three content categories of the heuristical analysis (the keys of
`column_candidates`, source lines 319-323). -/
inductive Candidate where
  | doi
  | period
  | euro
deriving DecidableEq, Repr

/-- The DOI test of source line 331: `oat.DOI_RE.match(entry)` on the
stripped entry. -/
def doi_test (env : Env) (entry : String) : Bool :=
  env.doi_match (strip entry)

/-- The year test of source lines 342-346: `int(entry)` parses and lies in
`[2000, now + 2]`. -/
def year_test (env : Env) (entry : String) : Bool :=
  match pyInt (strip entry) with
  | some maybe_period => decide (2000 ≤ maybe_period ∧ maybe_period ≤ env.current_year + 2)
  | none => false

/-- The monetary test of source lines 358-361: `locale.atof(entry)` parses
and lies in `[10, 6000]`. -/
def euro_test (env : Env) (entry : String) : Bool :=
  match env.atof (strip entry) with
  | some maybe_euro => decide (10 ≤ maybe_euro ∧ maybe_euro ≤ 6000)
  | none => false

/-- The per-entry candidate tests of the heuristical analysis (source lines
328-371), with the short-circuiting `continue` structure: the DOI test first
(only while the doi role is unassigned), then the year test (only while the
period role is unassigned), then the monetary test (only while the euro role
is unassigned).  Returns the candidate list the entry is appended to. -/
def scan_entry (env : Env) (doi_free period_free euro_free : Bool)
    (entry : String) : Option Candidate :=
  if doi_free && doi_test env entry then some .doi
  else if period_free && year_test env entry then some .period
  else if euro_free && euro_test env entry then some .euro
  else none

/-- The enumeration loop of source lines 324-371 collecting
`column_candidates`: entries whose index is already assigned to some column
are skipped; others are classified by `scan_entry`.  Returns the doi, period
and euro candidate index lists, in row order. -/
def collect_candidates_aux (env : Env) (assigned : List Nat)
    (doi_free period_free euro_free : Bool) :
    Nat → List String → List Nat × List Nat × List Nat
  | _, [] => ([], [], [])
  | i, e :: es =>
      let rest := collect_candidates_aux env assigned doi_free period_free euro_free (i + 1) es
      if assigned.contains i then rest
      else
        match scan_entry env doi_free period_free euro_free e with
        | some .doi => (i :: rest.1, rest.2.1, rest.2.2)
        | some .period => (rest.1, i :: rest.2.1, rest.2.2)
        | some .euro => (rest.1, rest.2.1, i :: rest.2.2)
        | none => rest

/-- `[csvcolumn.index for csvcolumn in column_map.values()]` (source line
325), restricted to the assigned ones: the indices already claimed. -/
def assigned_indices (cmap : List CSVColumn) : List Nat :=
  cmap.filterMap (·.index)

/-- `column_candidates` for one representative data row: the indices already
claimed are skipped, and a role's test only runs while
`column_map[role].index is None`. -/
def collect_candidates (env : Env) (cmap : List CSVColumn) (row : List String) :
    List Nat × List Nat × List Nat :=
  collect_candidates_aux env (assigned_indices cmap)
    ((getCol cmap "doi").index = none)
    ((getCol cmap "period").index = none)
    ((getCol cmap "euro").index = none)
    0 row

/-- The candidate resolution loop of source lines 372-390: a role already
assigned is left alone; exactly one candidate assigns the role's index (and
the column name when a header is present); zero or several candidates only
print a diagnostic. -/
def assign_candidates (header : Option (List String)) (cmap : List CSVColumn)
    (column_type : String) (candidates : List Nat) : List CSVColumn :=
  if (getCol cmap column_type).index ≠ none then cmap
  else
    match candidates with
    | [i] =>
        let c := getCol cmap column_type
        updateCol cmap column_type
          { c with index := some i,
                   column_name := match header with
                                  | some h => h.getD i ""
                                  | none => c.column_name }
    | _ => cmap

/-- Phase 2 of the classifier (source lines 314-391) on the representative
data row: collect candidates, then resolve the three content-detected roles.
The three resolutions read and write disjoint columns, so the unspecified
Python dict iteration order is fixed here as doi, period, euro. -/
def heuristic_scan (env : Env) (header : Option (List String))
    (cmap : List CSVColumn) (row : List String) : List CSVColumn :=
  let cands := collect_candidates env cmap row
  let cmap := assign_candidates header cmap "doi" cands.1
  let cmap := assign_candidates header cmap "period" cands.2.1
  assign_candidates header cmap "euro" cands.2.2

/-- Claim C6: for every column and every value v, including the NA sentinel,
`check_overwrite(v, v)` returns v, and on this equal-values path the column
state is left untouched and the result does not depend on the overwrite
policy, the memo dicts, or the interactive decision (the answer `ch` is
arbitrary and the state `c` is returned unchanged for every `c`). -/
theorem check_overwrite_equal_values (c : CSVColumn) (v : String)
    (ch : OverwriteChoice) : check_overwrite c v v ch = (v, c) := by
  simp [check_overwrite]

/-- Claim C9: for every column state, every pair of values and every outcome
the decision provider may return, `check_overwrite` returns either the old
or the new value; the fall-through that would return Python's implicit
`None` is unreachable because the input-validation loop admits only the six
enumerated answers (the six constructors of `OverwriteChoice`). -/
theorem check_overwrite_old_or_new (c : CSVColumn) (o n : String)
    (ch : OverwriteChoice) :
    (check_overwrite c o n ch).1 = o ∨ (check_overwrite c o n ch).1 = n := by
  unfold check_overwrite
  split_ifs <;>
    first
      | exact Or.inl rfl
      | exact Or.inr rfl
      | cases ch <;> first | exact Or.inl rfl | exact Or.inr rfl

/-- Claim C3, counterexample: on a column whose policy is `OW_NEVER`, the
call `check_overwrite("NA", "1500")` returns `"1500"`, not the old value
`"NA"`: the NA short-circuit (source lines 47-48) fires before the policy is
consulted, so NEVER does not hold "for every pair of values". -/
theorem c3_counterexample :
    (check_overwrite ⟨"euro", MANDATORY, none, "", OW_NEVER, [], []⟩
        "NA" "1500" .yes).1 = "1500" ∧ ("1500" : String) ≠ "NA" := by
  constructor
  · rfl
  · decide

/-- Claim C3 (amended): under policy ALWAYS, `check_overwrite` returns the
new value for every pair of values and leaves the column unchanged; under
policy NEVER it returns the old value and leaves the column unchanged
provided the old value is neither the NA sentinel nor whitespace-blank
(those are always overwritten, before any policy is consulted). -/
theorem check_overwrite_policy_modes (c : CSVColumn) (o n : String)
    (ch : OverwriteChoice) :
    (c.overwrite = OW_ALWAYS → check_overwrite c o n ch = (n, c)) ∧
    (c.overwrite = OW_NEVER → o ≠ "NA" → strip o ≠ "" →
       check_overwrite c o n ch = (o, c)) := by
  constructor
  · intro h
    unfold check_overwrite
    split_ifs <;> simp_all [OW_ALWAYS, OW_NEVER]
  · intro h hna hblank
    unfold check_overwrite
    split_ifs <;> simp_all [OW_ALWAYS, OW_NEVER]

/-- Witness for the amended claim C3 at concrete columns and values. -/
theorem check_overwrite_policy_modes_witness :
    check_overwrite ⟨"t", MANDATORY, none, "", OW_ALWAYS, [], []⟩ "100" "200" .no
      = ("200", ⟨"t", MANDATORY, none, "", OW_ALWAYS, [], []⟩) ∧
    check_overwrite ⟨"t", MANDATORY, none, "", OW_NEVER, [], []⟩ "100" "200" .yes
      = ("100", ⟨"t", MANDATORY, none, "", OW_NEVER, [], []⟩) :=
  ⟨(check_overwrite_policy_modes _ "100" "200" .no).1 rfl,
   (check_overwrite_policy_modes _ "100" "200" .yes).2 rfl (by decide) (by decide)⟩

/-- Claim C5: when the old value is a key of the whitelist and no earlier
step of `check_overwrite` applies (values differ, old value neither NA nor
blank, policy is ASK, the blacklist does not hold this exact pair), the
current new value is returned, whatever it is: only key membership is
tested, the stored replacement value is never compared against `n`. -/
theorem check_overwrite_whitelist_any_new (c : CSVColumn) (o n : String)
    (ch : OverwriteChoice) (hne : o ≠ n) (hna : o ≠ "NA")
    (hblank : strip o ≠ "") (hask : c.overwrite = OW_ASK)
    (hbl : dictGet c.overwrite_blacklist o ≠ some n)
    (hwl : (dictGet c.overwrite_whitelist o).isSome = true) :
    check_overwrite c o n ch = (n, c) := by
  unfold check_overwrite
  split_ifs <;> simp_all [OW_ALWAYS, OW_ASK, OW_NEVER]

/-- Witness for claim C5: the whitelist stores `"Old" → "Approved"`, yet a
conflict with the different new value `"Different"` is resolved to
`"Different"` without interaction. -/
theorem check_overwrite_whitelist_any_new_witness :
    check_overwrite ⟨"publisher", OPTIONAL, none, "", OW_ASK, [("Old", "Approved")], []⟩
        "Old" "Different" .no
      = ("Different", ⟨"publisher", OPTIONAL, none, "", OW_ASK, [("Old", "Approved")], []⟩) :=
  check_overwrite_whitelist_any_new _ "Old" "Different" .no (by decide) (by decide)
    (by decide) rfl (by decide) (by decide)

/-- Reading back the key just written into a dict. -/
theorem dictGet_dictSet_self (d : List (String × String)) (k v : String) :
    dictGet (dictSet d k v) k = some v := by
  induction d with
  | nil => simp [dictSet, dictGet]
  | cons p d ih =>
      obtain ⟨a, b⟩ := p
      by_cases h : a = k <;> simp [dictSet, dictGet, h, ih]

/-- Writing one key leaves every other key's binding unchanged. -/
theorem dictGet_dictSet_ne (d : List (String × String)) (k k' v : String)
    (h : k ≠ k') : dictGet (dictSet d k v) k' = dictGet d k' := by
  induction d with
  | nil => simp [dictSet, dictGet, h]
  | cons p d ih =>
      obtain ⟨a, b⟩ := p
      by_cases ha : a = k
      · subst ha
        simp [dictSet, dictGet, h, ih]
      · simp [dictSet, dictGet, ha, ih]

/-- The memoization invariant maintained by `check_overwrite`: whitelist and
blacklist entries are created only on the interactive path, whose guards
make every stored key non-NA, non-blank and (for the blacklist) distinct
from its stored value, and keep a whitelisted key from simultaneously
carrying the same pair in the blacklist. -/
def MemoInv (c : CSVColumn) : Prop :=
  (∀ o n, dictGet c.overwrite_whitelist o = some n →
     o ≠ "NA" ∧ strip o ≠ "" ∧ dictGet c.overwrite_blacklist o ≠ some n) ∧
  (∀ o n, dictGet c.overwrite_blacklist o = some n →
     o ≠ "NA" ∧ strip o ≠ "" ∧ o ≠ n)

/-- One `check_overwrite` call preserves the memoization invariant. -/
theorem check_overwrite_preserves_MemoInv (c : CSVColumn) (o n : String)
    (ch : OverwriteChoice) (h : MemoInv c) :
    MemoInv (check_overwrite c o n ch).2 := by
  unfold check_overwrite
  split_ifs with h1 h2 h3 h4 h5 h6 h7
  any_goals exact h
  cases ch
  -- option 1: accept once, no state change
  · exact h
  -- option 2: accept and whitelist the pair
  · constructor
    · intro o' n' hget
      by_cases ho : o = o'
      · subst ho
        rw [dictGet_dictSet_self] at hget
        injection hget with hn
        subst hn
        exact ⟨h2, h3, h6⟩
      · rw [dictGet_dictSet_ne _ _ _ _ ho] at hget
        exact h.1 o' n' hget
    · exact h.2
  -- option 3: accept and set the policy to ALWAYS
  · exact h
  -- option 4: reject once, no state change
  · exact h
  -- option 5: reject and blacklist the pair
  · constructor
    · intro o' n' hget
      have hne : o ≠ o' := by
        intro he
        subst he
        rw [hget] at h7
        simp at h7
      obtain ⟨ha, hb, hc⟩ := h.1 o' n' hget
      exact ⟨ha, hb, by rw [dictGet_dictSet_ne _ _ _ _ hne]; exact hc⟩
    · intro o' n' hget
      by_cases ho : o = o'
      · subst ho
        rw [dictGet_dictSet_self] at hget
        injection hget with hn
        subst hn
        exact ⟨h2, h3, h1⟩
      · rw [dictGet_dictSet_ne _ _ _ _ ho] at hget
        exact h.2 o' n' hget
  -- option 6: reject and set the policy to NEVER
  · exact h

/-- The invariant holds along every call trace. -/
theorem resolve_trace_MemoInv (trace : List (String × String × OverwriteChoice))
    (c : CSVColumn) (h : MemoInv c) : MemoInv (resolve_trace c trace) := by
  induction trace generalizing c with
  | nil => exact h
  | cons step rest ih =>
      obtain ⟨o, n, ch⟩ := step
      exact ih _ (check_overwrite_preserves_MemoInv c o n ch h)

/-- Every reachable column state satisfies the memoization invariant. -/
theorem memoInv_of_reachable (c : CSVColumn) (h : ReachableColumn c) :
    MemoInv c := by
  obtain ⟨t, req, idx, trace, rfl⟩ := h
  apply resolve_trace_MemoInv
  constructor <;> intro o n hget <;> simp [mkCSVColumn, dictGet] at hget

/-- Claim C4 (amended): on every column state reachable from a fresh column,
as long as the column's policy is still ASK, a pair `(o→n)` currently stored
in the whitelist makes `check_overwrite(o, n)` return `n`, and a pair
`(o→n)` currently stored in the blacklist makes it return `o`, in both
cases without consulting the interactive decision (the answer `ch` is
arbitrary) and without changing the column state.  The original claim fails
when an intervening decision has switched the policy to ALWAYS or NEVER, or
has re-blacklisted the same old value with a different replacement (the
blacklist keeps one pair per old value), so the caveats "policy still ASK"
and "currently stored" are necessary. -/
theorem check_overwrite_memoized_pairs (c : CSVColumn) (o n : String)
    (hr : ReachableColumn c) (hask : c.overwrite = OW_ASK) :
    (dictGet c.overwrite_whitelist o = some n →
       ∀ ch, check_overwrite c o n ch = (n, c)) ∧
    (dictGet c.overwrite_blacklist o = some n →
       ∀ ch, check_overwrite c o n ch = (o, c)) := by
  have hinv := memoInv_of_reachable c hr
  constructor
  · intro hw ch
    obtain ⟨hna, hblank, hbl⟩ := hinv.1 o n hw
    unfold check_overwrite
    split_ifs <;> simp_all [OW_ASK, OW_ALWAYS, OW_NEVER]
  · intro hb ch
    obtain ⟨hna, hblank, hne⟩ := hinv.2 o n hb
    unfold check_overwrite
    split_ifs <;> simp_all [OW_ASK, OW_ALWAYS, OW_NEVER]

/-- The column state reached by whitelisting `("a" → "b")` and then
blacklisting `("p" → "q")` on a fresh publisher column. -/
def c4_state : CSVColumn :=
  resolve_trace (mkCSVColumn "publisher" OPTIONAL none)
    [("a", "b", .yesRemember), ("p", "q", .noRemember)]

/-- Witness for the amended claim C4: on `c4_state` the whitelisted pair
resolves to the new value and the blacklisted pair to the old value, each
with no state change, whatever the decision provider would answer. -/
theorem check_overwrite_memoized_pairs_witness :
    check_overwrite c4_state "a" "b" .no = ("b", c4_state) ∧
    check_overwrite c4_state "p" "q" .yes = ("p", c4_state) :=
  ⟨(check_overwrite_memoized_pairs c4_state "a" "b"
      ⟨"publisher", OPTIONAL, none,
       [("a", "b", .yesRemember), ("p", "q", .noRemember)], rfl⟩
      (by decide)).1 (by decide) .no,
   (check_overwrite_memoized_pairs c4_state "p" "q"
      ⟨"publisher", OPTIONAL, none,
       [("a", "b", .yesRemember), ("p", "q", .noRemember)], rfl⟩
      (by decide)).2 (by decide) .yes⟩

/-- Claim C4, counterexample: after `("a" → "b")` is blacklisted (first
call), a later "never replace a by c" decision overwrites the blacklist
entry for key `"a"` (second call), and the subsequent `check_overwrite("a",
"b")` reaches the interactive prompt again and returns `"b"`, not `"a"`. -/
theorem c4_counterexample :
    (resolve_trace (mkCSVColumn "publisher" OPTIONAL none)
        [("a", "b", .noRemember)]).overwrite_blacklist = [("a", "b")] ∧
    (check_overwrite
        (resolve_trace (mkCSVColumn "publisher" OPTIONAL none)
          [("a", "b", .noRemember), ("a", "c", .noRemember)])
        "a" "b" .yes).1 = "b" ∧
    ("b" : String) ≠ "a" := by
  refine ⟨?_, ?_, ?_⟩ <;> decide

/-- A trivial environment: every external source fails, nothing parses,
every prompt is answered "yes once". -/
def env0 : Env :=
  { crossref := fun _ => .failure "e",
    pubmed := fun _ => .failure "e",
    doaj_lookup := fun _ => .failure "e",
    unify_title := id,
    unify_publisher := id,
    atof := fun _ => none,
    doi_match := fun _ => false,
    current_year := 2026,
    floatStr := fun _ => "",
    decision := fun _ _ _ => .yes }

/-- Environment whose DOAJ lookup answers "received, not in DOAJ" for every
ISSN except `"2222-2222"`, which is found. -/
def c2_env : Env :=
  { env0 with
    doaj_lookup := fun issn =>
      if issn = "2222-2222" then .received true "Journal B"
      else .received false "" }

/-- Claim C2, counterexample: with the first candidate answered "received,
not found" and the second "received, found", the source's chain continues
past the definitive "not found" and returns `"TRUE"`, while the chain the
claim describes stops at the first received response with `"FALSE"`. -/
theorem c2_counterexample :
    doaj_chain c2_env 1 ["1111-1111", "2222-2222"] "NA" [] = ("TRUE", []) ∧
    doaj_chain_claim c2_env 1 ["1111-1111", "2222-2222"] "NA" [] = ("FALSE", []) ∧
    ("TRUE" : String) ≠ "FALSE" := by
  refine ⟨rfl, rfl, by decide⟩

/-- Claim C2 (amended): the DOAJ fallback chain stops only at the first
candidate actually found in DOAJ; a received but definitive "not found"
response records `"FALSE"` and proceeds to the next candidate; an outright
lookup failure records one diagnostic and proceeds with the value kept. -/
theorem doaj_chain_step (env : Env) (rn : Nat) (issn : String)
    (rest : List String) (doaj : String) (errors : List String) (title : String) :
    (env.doaj_lookup issn = .received false title →
       doaj_chain env rn (issn :: rest) doaj errors =
         doaj_chain env rn rest "FALSE" errors) ∧
    (env.doaj_lookup issn = .received true title →
       doaj_chain env rn (issn :: rest) doaj errors = ("TRUE", errors)) ∧
    (∀ msg, env.doaj_lookup issn = .failure msg →
       doaj_chain env rn (issn :: rest) doaj errors =
         doaj_chain env rn rest doaj
           (errors ++ ["Line " ++ toString rn ++
                       ": DOAJ: Error while trying to look up ISSN " ++ issn ++ ": " ++ msg])) := by
  refine ⟨fun h => ?_, fun h => ?_, fun msg h => ?_⟩ <;> simp [doaj_chain, h]

/-- Witness for the amended claim C2: one "not found" answer falls through
to the rest of the chain, one "found" answer short-circuits with TRUE. -/
theorem doaj_chain_step_witness :
    doaj_chain c2_env 1 ["1111-1111"] "NA" [] = doaj_chain c2_env 1 [] "FALSE" [] ∧
    doaj_chain c2_env 1 ["2222-2222"] "NA" [] = ("TRUE", []) :=
  ⟨(doaj_chain_step c2_env 1 "1111-1111" [] "NA" [] "").1 rfl,
   (doaj_chain_step c2_env 1 "2222-2222" [] "NA" [] "Journal B").2.1 rfl⟩

/-- Claim C7: a non-empty data row (after header handling) whose cell count
differs from the expected column count is appended to the output unchanged,
exactly one diagnostic naming its line number is recorded, the column map is
untouched and no reconciliation happens (`process_row` is never entered),
and the loop continues with the remaining rows. -/
theorem process_rows_shape_mismatch (env : Env) (n : Nat) (row : List String)
    (rest : List (List String)) (row_num : Nat) (has_header : Bool)
    (cmap : List CSVColumn) (enriched : List (List String))
    (errors : List String) (hne : row ≠ []) (hlen : row.length ≠ n) :
    process_rows env n (row :: rest) row_num has_header true cmap enriched errors =
      process_rows env n rest (row_num + 1) has_header true cmap
        (enriched ++ [row])
        (errors ++ ["Line " ++ toString (row_num + 1) ++ ": " ++
                    row_shape_error_msg (row_num + 1) row.length n]) := by
  cases row with
  | nil => exact absurd rfl hne
  | cons a as =>
      rw [process_rows]
      simp only [List.length_cons] at hlen
      simp [hlen]

/-- Witness for claim C7 at a concrete two-cell row against three expected
columns. -/
theorem process_rows_shape_mismatch_witness :
    process_rows env0 3 [["a", "b"]] 0 false true [] [] [] =
      process_rows env0 3 [] 1 false true []
        ([] ++ [["a", "b"]])
        ([] ++ ["Line " ++ toString 1 ++ ": " ++ row_shape_error_msg 1 2 3]) :=
  process_rows_shape_mismatch env0 3 ["a", "b"] [] 0 false [] [] []
    (by decide) (by decide)

/-- The column type stored by the constructor. -/
theorem mkCSVColumn_column_type (t r : String) (i : Option Nat) :
    (mkCSVColumn t r i).column_type = t := rfl

/-- `build_field` cannot fail on a non-euro column: only the monetary parse
aborts the run. -/
theorem build_field_ok_of_ne_euro (env : Env) (row : List String)
    (c : CSVColumn) (h : c.column_type ≠ "euro") :
    ∃ v, build_field env row c = .ok (c.column_type, v) := by
  cases hidx : c.index with
  | none => exact ⟨"NA", by simp only [build_field, hidx]⟩
  | some i =>
      by_cases hlen : 0 < (row.getD i "").length
      · refine ⟨row.getD i "", ?_⟩
        simp only [build_field, hidx]
        rw [if_pos hlen, if_neg h]
      · refine ⟨"NA", ?_⟩
        simp only [build_field, hidx]
        rw [if_neg hlen]

/-- One step of the row-building loop, given both sub-results. -/
theorem build_current_row_cons_ok (env : Env) (row : List String)
    (c : CSVColumn) (cs : List CSVColumn) (f : String × String)
    (r : List (String × String))
    (hf : build_field env row c = .ok f)
    (hr : build_current_row env row cs = .ok r) :
    build_current_row env row (c :: cs) = .ok (f :: r) := by
  simp only [build_current_row, hf, hr]

/-- Building the row over euro-free columns always succeeds. -/
theorem build_current_row_ok_of_no_euro (env : Env) (row : List String) :
    ∀ cs : List CSVColumn, (∀ c ∈ cs, c.column_type ≠ "euro") →
      ∃ r, build_current_row env row cs = .ok r := by
  intro cs h
  induction cs with
  | nil => exact ⟨[], rfl⟩
  | cons c cs ih =>
      obtain ⟨v, hv⟩ := build_field_ok_of_ne_euro env row c (h c (by simp))
      obtain ⟨r, hr⟩ := ih (fun c' hc' => h c' (by simp [hc']))
      exact ⟨(c.column_type, v) :: r, by simp [build_current_row, hv, hr]⟩

/-- Claim C10: when the initial Row is built, a non-empty native euro cell
is not copied verbatim: it is parsed with `locale.atof` and re-serialized,
and a cell parsing to an integral number is written as that integer with no
fractional part (`str(int(euro))`), whatever the other columns hold. -/
theorem build_row_euro_reserialized (env : Env) (row : List String)
    (instIdx perIdx doiIdx hybIdx pubIdx jftIdx issIdx urlIdx : Option Nat)
    (i : Nat) (q : ℚ)
    (hcell : 0 < (row.getD i "").length)
    (hparse : env.atof (row.getD i "") = some q) (hint : q.den = 1) :
    ∃ r, build_current_row env row
        (mk_column_map instIdx perIdx (some i) doiIdx hybIdx pubIdx jftIdx issIdx urlIdx)
          = .ok r ∧
      rowGetD r "euro" "" = toString q.num := by
  obtain ⟨v1, h1⟩ := build_field_ok_of_ne_euro env row
    (mkCSVColumn "institution" MANDATORY instIdx) (by simp [mkCSVColumn])
  obtain ⟨v2, h2⟩ := build_field_ok_of_ne_euro env row
    (mkCSVColumn "period" MANDATORY perIdx) (by simp [mkCSVColumn])
  have h3 : build_field env row (mkCSVColumn "euro" MANDATORY (some i)) =
      .ok ("euro", toString q.num) := by
    simp only [build_field, mkCSVColumn]
    rw [if_pos hcell, hparse]
    simp [hint]
  obtain ⟨r', hr'⟩ := build_current_row_ok_of_no_euro env row
      [mkCSVColumn "doi" MANDATORY doiIdx, mkCSVColumn "is_hybrid" MANDATORY hybIdx,
       mkCSVColumn "publisher" OPTIONAL pubIdx,
       mkCSVColumn "journal_full_title" OPTIONAL jftIdx,
       mkCSVColumn "issn" OPTIONAL issIdx, mkCSVColumn "issn_print" NONE none,
       mkCSVColumn "issn_electronic" NONE none, mkCSVColumn "license_ref" NONE none,
       mkCSVColumn "indexed_in_crossref" NONE none, mkCSVColumn "pmid" NONE none,
       mkCSVColumn "pmcid" NONE none, mkCSVColumn "ut" NONE none,
       mkCSVColumn "url" OPTIONAL urlIdx, mkCSVColumn "doaj" NONE none]
      (by intro c hc; fin_cases hc <;> simp [mkCSVColumn])
  rw [mkCSVColumn_column_type] at h1
  rw [mkCSVColumn_column_type] at h2
  have hb3 := build_current_row_cons_ok env row _ _ _ _ h3 hr'
  have hb2 := build_current_row_cons_ok env row _ _ _ _ h2 hb3
  have hb1 := build_current_row_cons_ok env row _ _ _ _ h1 hb2
  exact ⟨_, hb1, by simp [rowGetD]⟩

/-- Environment whose locale parses `"1500.00"` to the integral 1500. -/
def c10_env : Env :=
  { env0 with atof := fun s => if s = "1500.00" then some 1500 else none }

/-- Witness for claim C10: the euro cell `"1500.00"` comes out as `"1500"`,
which differs from the cell text, so the cell is not copied verbatim. -/
theorem build_row_euro_reserialized_witness :
    (∃ r, build_current_row c10_env ["1500.00"]
        (mk_column_map none none (some 0) none none none none none none) = .ok r ∧
      rowGetD r "euro" "" = toString (1500 : ℚ).num) ∧
    toString (1500 : ℚ).num = "1500" ∧ ("1500" : String) ≠ "1500.00" :=
  ⟨build_row_euro_reserialized c10_env ["1500.00"] none none none none none none none none
     0 1500 (by decide) rfl (by decide),
   by decide, by decide⟩

/-- The registry of the end-to-end scenario: the five mandatory roles
matched, in order, to the five columns of the input row. -/
def scenario_cmap : List CSVColumn :=
  mk_column_map (some 0) (some 1) (some 2) (some 3) (some 4) none none none none

/-- Claim C1 (amended): with the five mandatory roles matched to the five
cells of the row and both metadata sources failing for its DOI, the output
Row carries the five native values verbatim (the euro cell passing
unchanged through the locale round-trip) and every optional and
NONE-requirement role is NA — except `indexed_in_crossref`, which records
the failed Crossref lookup as `"FALSE"`.  The two per-line diagnostics are
the Crossref and Pubmed failure messages, and the column map is unchanged. -/
theorem process_row_all_sources_fail (env : Env) (rn : Nat)
    (inst per eur doiv hyb em1 em2 : String) (q : ℚ)
    (hinst : 0 < inst.length) (hper : 0 < per.length) (heur : 0 < eur.length)
    (hdoi : 0 < doiv.length) (hhyb : 0 < hyb.length)
    (hatof : env.atof eur = some q) (hint : q.den = 1)
    (hround : toString q.num = eur)
    (hcr : env.crossref doiv = .failure em1)
    (hpm : env.pubmed doiv = .failure em2) :
    process_row env rn [inst, per, eur, doiv, hyb] scenario_cmap =
      .ok ([inst, per, eur, doiv, hyb, "NA", "NA", "NA", "NA", "NA", "NA", "FALSE",
            "NA", "NA", "NA", "NA", "NA"],
           ["Line " ++ toString rn ++ ": Crossref: Error while trying to resolve DOI "
              ++ doiv ++ ": " ++ em1,
            "Line " ++ toString rn ++ ": Pubmed: Error while trying to resolve DOI "
              ++ doiv ++ ": " ++ em2],
           scenario_cmap) := by
  simp [process_row, scenario_cmap, mk_column_map, mkCSVColumn, getCol,
        build_current_row, build_field, crossref_merge, pubmed_merge,
        doaj_step, doaj_chain, rowGetD, rowSet,
        hinst, hper, heur, hdoi, hhyb, hatof, hint, hround, hcr, hpm]

/-- Environment for the concrete scenario row: both metadata sources fail
and the locale parses `"1500"` to the integral 1500. -/
def c1_env : Env :=
  { env0 with atof := fun s => if s = "1500" then some 1500 else none }

/-- Claim C1, counterexample: on the spec's own scenario row with no
metadata source returning data, the NONE-requirement role
`indexed_in_crossref` comes out as `"FALSE"`, not `"NA"` as the claim
demands (the Crossref failure branch writes `"FALSE"`, source line 567). -/
theorem c1_counterexample :
    process_row c1_env 1 ["Harvard", "2021", "1500", "10.1/abc", "TRUE"] scenario_cmap =
      .ok (["Harvard", "2021", "1500", "10.1/abc", "TRUE", "NA", "NA", "NA", "NA",
            "NA", "NA", "FALSE", "NA", "NA", "NA", "NA", "NA"],
           ["Line 1: Crossref: Error while trying to resolve DOI 10.1/abc: e",
            "Line 1: Pubmed: Error while trying to resolve DOI 10.1/abc: e"],
           scenario_cmap) ∧
    ("FALSE" : String) ≠ "NA" := by
  refine ⟨?_, by decide⟩
  rfl

/-- Witness for the amended claim C1 at the spec's scenario row. -/
theorem process_row_all_sources_fail_witness :
    process_row c1_env 1 ["Harvard", "2021", "1500", "10.1/abc", "TRUE"] scenario_cmap =
      .ok (["Harvard", "2021", "1500", "10.1/abc", "TRUE", "NA", "NA", "NA", "NA",
            "NA", "NA", "FALSE", "NA", "NA", "NA", "NA", "NA"],
           ["Line " ++ toString 1 ++ ": Crossref: Error while trying to resolve DOI "
              ++ "10.1/abc" ++ ": " ++ "e",
            "Line " ++ toString 1 ++ ": Pubmed: Error while trying to resolve DOI "
              ++ "10.1/abc" ++ ": " ++ "e"],
           scenario_cmap) :=
  process_row_all_sources_fail c1_env 1 "Harvard" "2021" "1500" "10.1/abc" "TRUE"
    "e" "e" 1500 (by decide) (by decide) (by decide) (by decide) (by decide)
    rfl (by decide) (by decide) rfl rfl

/-- The doi candidate list produced by the scan, when the doi role is free:
exactly the unclaimed indices whose stripped entry matches the DOI pattern,
in row order. -/
theorem collect_aux_doi (env : Env) (assigned : List Nat) (pf ef : Bool) :
    ∀ (i0 : Nat) (es : List String),
    (collect_candidates_aux env assigned true pf ef i0 es).1 =
      ((List.enumFrom i0 es).filter
        (fun p => !assigned.contains p.1 && doi_test env p.2)).map (·.1) := by
  intro i0 es
  induction es generalizing i0 with
  | nil => rfl
  | cons e es ih =>
      by_cases hc : i0 ∈ assigned
      · simp [collect_candidates_aux, List.enumFrom, hc, ih]
      · by_cases hd : doi_test env e = true
        · simp [collect_candidates_aux, scan_entry, List.enumFrom, hc, hd, ih]
        · by_cases hy : (pf && year_test env e) = true
          · simp [collect_candidates_aux, scan_entry, List.enumFrom, hc, hd, hy, ih]
          · by_cases he : (ef && euro_test env e) = true
            · simp [collect_candidates_aux, scan_entry, List.enumFrom, hc, hd, hy, he, ih]
            · simp [collect_candidates_aux, scan_entry, List.enumFrom, hc, hd, hy, he, ih]

/-- The period candidate list, when the doi and period roles are both free:
the unclaimed indices whose entry passes the year test and was not captured
by the earlier DOI test (`continue` short-circuits the scan). -/
theorem collect_aux_period (env : Env) (assigned : List Nat) (ef : Bool) :
    ∀ (i0 : Nat) (es : List String),
    (collect_candidates_aux env assigned true true ef i0 es).2.1 =
      ((List.enumFrom i0 es).filter
        (fun p => (!assigned.contains p.1 && year_test env p.2)
                  && !doi_test env p.2)).map (·.1) := by
  intro i0 es
  induction es generalizing i0 with
  | nil => rfl
  | cons e es ih =>
      by_cases hc : i0 ∈ assigned
      · simp [collect_candidates_aux, List.enumFrom, hc, ih]
      · by_cases hd : doi_test env e = true
        · simp [collect_candidates_aux, scan_entry, List.enumFrom, hc, hd, ih]
        · by_cases hy : year_test env e = true
          · simp [collect_candidates_aux, scan_entry, List.enumFrom, hc, hd, hy, ih]
          · by_cases he : (ef && euro_test env e) = true
            · simp [collect_candidates_aux, scan_entry, List.enumFrom, hc, hd, hy, he, ih]
            · simp [collect_candidates_aux, scan_entry, List.enumFrom, hc, hd, hy, he, ih]

/-- The euro candidate list, when all three roles are free: the unclaimed
indices whose entry passes the monetary test and was captured by neither the
DOI test nor the year test. -/
theorem collect_aux_euro (env : Env) (assigned : List Nat) :
    ∀ (i0 : Nat) (es : List String),
    (collect_candidates_aux env assigned true true true i0 es).2.2 =
      ((List.enumFrom i0 es).filter
        (fun p => (!assigned.contains p.1 && euro_test env p.2)
                  && (!doi_test env p.2 && !year_test env p.2))).map (·.1) := by
  intro i0 es
  induction es generalizing i0 with
  | nil => rfl
  | cons e es ih =>
      by_cases hc : i0 ∈ assigned
      · simp [collect_candidates_aux, List.enumFrom, hc, ih]
      · by_cases hd : doi_test env e = true
        · simp [collect_candidates_aux, scan_entry, List.enumFrom, hc, hd, ih]
        · by_cases hy : year_test env e = true
          · simp [collect_candidates_aux, scan_entry, List.enumFrom, hc, hd, hy, ih]
          · by_cases he : euro_test env e = true
            · simp [collect_candidates_aux, scan_entry, List.enumFrom, hc, hd, hy, he, ih]
            · simp [collect_candidates_aux, scan_entry, List.enumFrom, hc, hd, hy, he, ih]

/-- Filtering a singleton further keeps it when the extra test passes. -/
theorem filter_and_singleton {α : Type} (l : List α) (p q : α → Bool) (a : α)
    (h : l.filter p = [a]) (hq : q a = true) :
    l.filter (fun x => p x && q x) = [a] := by
  induction l with
  | nil => simp at h
  | cons x xs ih =>
      by_cases hp : p x = true
      · rw [List.filter_cons_of_pos hp] at h
        injection h with h1 h2
        subst h1
        rw [List.filter_cons_of_pos (by simp [hp, hq])]
        have hnil : xs.filter (fun x => p x && q x) = [] := by
          rw [List.filter_eq_nil_iff]
          intro y hy
          have : ¬ p y = true := by
            rw [List.filter_eq_nil_iff] at h2
            exact h2 y hy
          simp [this]
        rw [hnil]
      · rw [List.filter_cons_of_neg hp] at h
        rw [List.filter_cons_of_neg (by simp [hp])]
        exact ih h

/-- The registry classification starts from for claim C8: the three
content-detected roles (doi, period, euro) unassigned, the other forced
assignments arbitrary. -/
def c8_cmap (instIdx hybIdx pubIdx jftIdx issIdx urlIdx : Option Nat) :
    List CSVColumn :=
  mk_column_map instIdx none none none hybIdx pubIdx jftIdx issIdx urlIdx

/-- "A DOI-shaped value in a column not yet claimed by any role" (the
claim's hypothesis), as a test on one enumerated row entry. -/
abbrev doi_candidate_pred (env : Env) (cmap : List CSVColumn) :
    Nat × String → Bool :=
  fun p => !(assigned_indices cmap).contains p.1 && doi_test env p.2

/-- "A year-shaped value (an integer in [2000, currentYear + 2]) in an
unclaimed column". -/
abbrev year_candidate_pred (env : Env) (cmap : List CSVColumn) :
    Nat × String → Bool :=
  fun p => !(assigned_indices cmap).contains p.1 && year_test env p.2

/-- "A money-shaped value (a locale-parsed decimal in [10, 6000]) in an
unclaimed column". -/
abbrev euro_candidate_pred (env : Env) (cmap : List CSVColumn) :
    Nat × String → Bool :=
  fun p => !(assigned_indices cmap).contains p.1 && euro_test env p.2

/-- Claim C8: when the representative row holds exactly one DOI-shaped
value, exactly one year-shaped value and exactly one money-shaped value,
each in a distinct column not yet claimed by any role, content
classification assigns the roles doi, period and euro to exactly those
three columns. -/
theorem heuristic_scan_assigns_three (env : Env) (header : Option (List String))
    (row : List String) (instIdx hybIdx pubIdx jftIdx issIdx urlIdx : Option Nat)
    (i j k : Nat) (ed ey em : String)
    (hij : i ≠ j) (hik : i ≠ k) (hjk : j ≠ k)
    (hd : (List.enumFrom 0 row).filter
        (doi_candidate_pred env (c8_cmap instIdx hybIdx pubIdx jftIdx issIdx urlIdx))
          = [(i, ed)])
    (hy : (List.enumFrom 0 row).filter
        (year_candidate_pred env (c8_cmap instIdx hybIdx pubIdx jftIdx issIdx urlIdx))
          = [(j, ey)])
    (hm : (List.enumFrom 0 row).filter
        (euro_candidate_pred env (c8_cmap instIdx hybIdx pubIdx jftIdx issIdx urlIdx))
          = [(k, em)]) :
    (getCol (heuristic_scan env header
        (c8_cmap instIdx hybIdx pubIdx jftIdx issIdx urlIdx) row) "doi").index = some i ∧
    (getCol (heuristic_scan env header
        (c8_cmap instIdx hybIdx pubIdx jftIdx issIdx urlIdx) row) "period").index = some j ∧
    (getCol (heuristic_scan env header
        (c8_cmap instIdx hybIdx pubIdx jftIdx issIdx urlIdx) row) "euro").index = some k := by
  have hy_mem0 : (j, ey) ∈ (List.enumFrom 0 row).filter
      (year_candidate_pred env (c8_cmap instIdx hybIdx pubIdx jftIdx issIdx urlIdx)) := by
    rw [hy]; exact List.mem_singleton_self _
  have hy_enum : (j, ey) ∈ List.enumFrom 0 row := List.mem_of_mem_filter hy_mem0
  have hy_pred := List.of_mem_filter hy_mem0
  rw [Bool.and_eq_true] at hy_pred
  obtain ⟨hy_uncl, hy_year⟩ := hy_pred
  have hm_mem0 : (k, em) ∈ (List.enumFrom 0 row).filter
      (euro_candidate_pred env (c8_cmap instIdx hybIdx pubIdx jftIdx issIdx urlIdx)) := by
    rw [hm]; exact List.mem_singleton_self _
  have hm_enum : (k, em) ∈ List.enumFrom 0 row := List.mem_of_mem_filter hm_mem0
  have hm_pred := List.of_mem_filter hm_mem0
  rw [Bool.and_eq_true] at hm_pred
  obtain ⟨hm_uncl, hm_euro⟩ := hm_pred
  -- the year-shaped entry is not DOI-shaped, else it would be the (unique)
  -- doi candidate, contradicting i ≠ j
  have hjd : doi_test env ey = false := by
    by_contra hcon
    rw [Bool.not_eq_false] at hcon
    have hmemd : (j, ey) ∈ (List.enumFrom 0 row).filter
        (doi_candidate_pred env (c8_cmap instIdx hybIdx pubIdx jftIdx issIdx urlIdx)) :=
      List.mem_filter.mpr ⟨hy_enum, by simp only [Bool.and_eq_true]; exact ⟨hy_uncl, hcon⟩⟩
    rw [hd, List.mem_singleton] at hmemd
    exact hij (congrArg Prod.fst hmemd).symm
  -- the money-shaped entry is neither DOI-shaped nor year-shaped
  have hkd : doi_test env em = false := by
    by_contra hcon
    rw [Bool.not_eq_false] at hcon
    have hmemd : (k, em) ∈ (List.enumFrom 0 row).filter
        (doi_candidate_pred env (c8_cmap instIdx hybIdx pubIdx jftIdx issIdx urlIdx)) :=
      List.mem_filter.mpr ⟨hm_enum, by simp only [Bool.and_eq_true]; exact ⟨hm_uncl, hcon⟩⟩
    rw [hd, List.mem_singleton] at hmemd
    exact hik (congrArg Prod.fst hmemd).symm
  have hky : year_test env em = false := by
    by_contra hcon
    rw [Bool.not_eq_false] at hcon
    have hmemy : (k, em) ∈ (List.enumFrom 0 row).filter
        (year_candidate_pred env (c8_cmap instIdx hybIdx pubIdx jftIdx issIdx urlIdx)) :=
      List.mem_filter.mpr ⟨hm_enum, by simp only [Bool.and_eq_true]; exact ⟨hm_uncl, hcon⟩⟩
    rw [hy, List.mem_singleton] at hmemy
    exact hjk (congrArg Prod.fst hmemy).symm
  -- the three candidate lists are the three singletons
  have h1 : (collect_candidates_aux env
      (assigned_indices (c8_cmap instIdx hybIdx pubIdx jftIdx issIdx urlIdx))
      true true true 0 row).1 = [i] := by
    rw [collect_aux_doi, hd]
    rfl
  have h2 : (collect_candidates_aux env
      (assigned_indices (c8_cmap instIdx hybIdx pubIdx jftIdx issIdx urlIdx))
      true true true 0 row).2.1 = [j] := by
    rw [collect_aux_period,
        filter_and_singleton (List.enumFrom 0 row)
          (year_candidate_pred env (c8_cmap instIdx hybIdx pubIdx jftIdx issIdx urlIdx))
          (fun p => !doi_test env p.2) (j, ey) hy (by simp [hjd])]
    rfl
  have h3 : (collect_candidates_aux env
      (assigned_indices (c8_cmap instIdx hybIdx pubIdx jftIdx issIdx urlIdx))
      true true true 0 row).2.2 = [k] := by
    rw [collect_aux_euro,
        filter_and_singleton (List.enumFrom 0 row)
          (euro_candidate_pred env (c8_cmap instIdx hybIdx pubIdx jftIdx issIdx urlIdx))
          (fun p => !doi_test env p.2 && !year_test env p.2) (k, em) hm
          (by simp [hkd, hky])]
    rfl
  have hcands : collect_candidates env
      (c8_cmap instIdx hybIdx pubIdx jftIdx issIdx urlIdx) row = ([i], [j], [k]) := by
    have hrfl : collect_candidates env
        (c8_cmap instIdx hybIdx pubIdx jftIdx issIdx urlIdx) row =
      collect_candidates_aux env
        (assigned_indices (c8_cmap instIdx hybIdx pubIdx jftIdx issIdx urlIdx))
        true true true 0 row := rfl
    rcases hh : collect_candidates_aux env
        (assigned_indices (c8_cmap instIdx hybIdx pubIdx jftIdx issIdx urlIdx))
        true true true 0 row with ⟨a, b, c⟩
    rw [hh] at h1 h2 h3
    simp only at h1 h2 h3
    rw [hrfl, hh, h1, h2, h3]
  refine ⟨?_, ?_, ?_⟩ <;>
    · simp only [heuristic_scan, hcands]
      simp [assign_candidates, getCol, updateCol, c8_cmap, mk_column_map, mkCSVColumn]

/-- Environment for the C8 witness: the DOI pattern matches exactly
`"10.1/abc"`, the locale parses exactly `"49,99"` (to 50), and the current
year is 2026. -/
def c8_env : Env :=
  { env0 with
    doi_match := fun s => s == "10.1/abc",
    atof := fun s => if s = "49,99" then some 50 else none }

/-- Witness for claim C8: on the row `["10.1/abc", "2021", "49,99"]` with
all roles unassigned, the classifier assigns doi to column 0, period to
column 1 and euro to column 2. -/
theorem heuristic_scan_assigns_three_witness :
    (getCol (heuristic_scan c8_env none (c8_cmap none none none none none none)
        ["10.1/abc", "2021", "49,99"]) "doi").index = some 0 ∧
    (getCol (heuristic_scan c8_env none (c8_cmap none none none none none none)
        ["10.1/abc", "2021", "49,99"]) "period").index = some 1 ∧
    (getCol (heuristic_scan c8_env none (c8_cmap none none none none none none)
        ["10.1/abc", "2021", "49,99"]) "euro").index = some 2 :=
  heuristic_scan_assigns_three c8_env none ["10.1/abc", "2021", "49,99"]
    none none none none none none 0 1 2 "10.1/abc" "2021" "49,99"
    (by decide) (by decide) (by decide) (by decide) (by decide) (by decide)
